import Mathlib

/-!
Shallow embedding of the mediaNest backend (src/server.js): an Express proxy
for the Openverse media-search API.  The server exposes two endpoints:

* `GET /api/search` — validates `mediaType` and `license` query parameters,
  obtains an OAuth2 access token via `getAccessToken`, forwards the search to
  the upstream API, and relays the JSON body or a mapped error.
* `GET /api/health` — unconditional liveness responder.

Network effects are modelled by passing in the outcome each outbound axios
call would have (`AxiosResult`), and every handler additionally returns the
list of network calls it actually issued, so that claims about "no network
call is made" are provable.  JavaScript `undefined` query parameters are
modelled as `Option.none`, and JavaScript truthiness of strings by
`jsTruthy`.
-/

namespace MediaNest

/-- A JSON value, as relayed between the upstream API and the caller. -/
inductive Json where
  | null
  | bool (b : Bool)
  | num (n : Int)
  | str (s : String)
  | arr (xs : List Json)
  | obj (fields : List (String × Json))

/-- JavaScript property access `v?.key` on a JSON value: `some` the field of
an object, `none` (undefined) otherwise. -/
def getField : Json → String → Option Json
  | .obj fields, key => fields.lookup key
  | _, _ => none

/-- JavaScript truthiness of a possibly-undefined string: `undefined` and the
empty string are falsy, every other string is truthy. -/
def jsTruthy : Option String → Bool
  | none => false
  | some s => !(s == "")

/-- JavaScript truthiness of a JSON value (`null`, `false`, `0` and `""` are
falsy; objects and arrays are truthy). -/
def jsJsonTruthy : Json → Bool
  | .null => false
  | .bool b => b
  | .num n => !(n == 0)
  | .str s => !(s == "")
  | .arr _ => true
  | .obj _ => true

/-- JavaScript string conversion of a JSON value, as performed by template
literal interpolation. -/
def jsDisplay : Json → String
  | .null => "null"
  | .bool b => if b then "true" else "false"
  | .num n => toString n
  | .str s => s
  | .obj _ => "[object Object]"
  | .arr xs => String.intercalate "," (xs.attach.map fun v => jsDisplay v.1)
decreasing_by
  have := List.sizeOf_lt_of_mem v.2
  simp only [Json.arr.sizeOf_spec]
  omega

/-- Template-literal interpolation of a possibly-undefined string
(`undefined` prints as the literal string "undefined"). -/
def jsTemplateStr : Option String → String
  | some s => s
  | none => "undefined"

/-- Process configuration: `OPENVERSE_CLIENT_ID` / `OPENVERSE_CLIENT_SECRET`
environment variables, each possibly unset. -/
structure Config where
  clientId : Option String
  clientSecret : Option String

/-- Raw query parameters of a `/api/search` request (all optional strings,
as delivered by the transport). -/
structure SearchQuery where
  q : Option String
  mediaType : Option String
  license : Option String

/-- An axios error as observed in a `catch` block: either an HTTP error
response (`error.response` present, with status and data) or a network error
(no response, only a message). -/
inductive AxiosError where
  | httpError (status : Nat) (data : Json) (message : String)
  | networkError (message : String)

/-- The outcome an outbound axios call would have: a 2xx success carrying the
response body, or a failure. -/
inductive AxiosResult where
  | success (data : Json)
  | failure (e : AxiosError)

/-- An outbound network call issued by the server. -/
inductive NetworkCall where
  | tokenFetch
  | searchGet (url : String)
deriving DecidableEq

/-- An HTTP response sent to the caller. -/
structure Response where
  status : Nat
  body : Json

/-- The JSON error payload `{error: msg}` used by every error response. -/
def errorBody (msg : String) : Json :=
  .obj [("error", .str msg)]

/-- `const validMediaTypes = ['images', 'audio']` (server.js line 70). -/
def validMediaTypes : List String := ["images", "audio"]

/-- `const validLicenses = [...]` (server.js line 20). -/
def validLicenses : List String :=
  ["CC0", "BY", "BY-SA", "BY-NC", "BY-ND", "BY-NC-SA", "BY-NC-ND"]

/-- `validMediaTypes.includes(mediaType)` where `mediaType` may be undefined
(an undefined value is never an element). -/
def mediaTypeIsValid : Option String → Bool
  | some m => validMediaTypes.contains m
  | none => false

/-- The guard `license && !validLicenses.includes(license)` (server.js
line 78): the license is rejected when it is truthy and not in the list. -/
def licenseRejected (license : Option String) : Bool :=
  jsTruthy license && !(validLicenses.contains (license.getD ""))

/-- `error.response?.data?.error === 'unsupported_grant_type'` (line 54). -/
def isUnsupportedGrantType (data : Json) : Bool :=
  match getField data "error" with
  | some (.str s) => s == "unsupported_grant_type"
  | _ => false

/-- The error message thrown by `getAccessToken` (server.js lines 53-60)
when the token-endpoint call fails. -/
def tokenErrorMessage : AxiosError → String
  | .httpError status data _ =>
    if status == 400 && isUnsupportedGrantType data then
      "Unsupported grant_type. Contact openverse@wordpress.org for the correct grant_type."
    else if status == 401 then
      "Authentication failed: Invalid client_id or client_secret"
    else if status == 429 then
      "Rate limit exceeded. Please try again later."
    else
      "Failed to obtain access token"
  | .networkError _ => "Failed to obtain access token"

/-- The configuration-error message thrown at server.js line 29. -/
def missingCredsMsg : String :=
  "Missing OPENVERSE_CLIENT_ID or OPENVERSE_CLIENT_SECRET in .env file"

/-- `getAccessToken` (server.js lines 23-63): fails with a configuration
error before any network call when either credential is missing/empty;
otherwise performs the token POST, returning `response.data.access_token`
on success and a mapped error message on failure.  The second component is
the list of network calls issued. -/
def getAccessToken (cfg : Config) (tokenResult : AxiosResult) :
    Except String (Option Json) × List NetworkCall :=
  if !(jsTruthy cfg.clientId) || !(jsTruthy cfg.clientSecret) then
    (.error missingCredsMsg, [])
  else
    match tokenResult with
    | .success data => (.ok (getField data "access_token"), [.tokenFetch])
    | .failure e => (.error (tokenErrorMessage e), [.tokenFetch])

/-- The upstream search URL built at server.js line 83:
`https://api.openverse.org/v1/${mediaType}?q=${encodeURIComponent(q)}` with
`&license=${apiLicense}` appended when `apiLicense` is truthy. -/
def hexDigitChar (n : Nat) : Char :=
  if n < 10 then Char.ofNat (48 + n) else Char.ofNat (55 + n)

/-- Percent-encoding of one byte as `%XX` with uppercase hex digits. -/
def percentByte (b : Nat) : String :=
  "%" ++ String.singleton (hexDigitChar (b / 16)) ++ String.singleton (hexDigitChar (b % 16))

/-- UTF-8 encoding of a Unicode scalar value. -/
def utf8Bytes (n : Nat) : List Nat :=
  if n < 128 then [n]
  else if n < 2048 then [192 + n / 64, 128 + n % 64]
  else if n < 65536 then [224 + n / 4096, 128 + (n / 64) % 64, 128 + n % 64]
  else [240 + n / 262144, 128 + (n / 4096) % 64, 128 + (n / 64) % 64, 128 + n % 64]

/-- Characters left unescaped by JavaScript `encodeURIComponent`:
`A-Z a-z 0-9 - _ . ! ~ * ' ( )`. -/
def isUnreservedURIChar (c : Char) : Bool :=
  (65 ≤ c.toNat && c.toNat ≤ 90) || (97 ≤ c.toNat && c.toNat ≤ 122) ||
  (48 ≤ c.toNat && c.toNat ≤ 57) ||
  c == '-' || c == '_' || c == '.' || c == '!' || c == '~' ||
  c == Char.ofNat 42 || c == Char.ofNat 39 || c == '(' || c == ')'

/-- JavaScript `encodeURIComponent`: unreserved characters pass through,
every other character is percent-encoded byte-wise in UTF-8. -/
def encodeURIComponent (s : String) : String :=
  String.join (s.toList.map fun c =>
    if isUnreservedURIChar c then String.singleton c
    else String.join ((utf8Bytes c.toNat).map percentByte))

/-- Server.js line 83.  `q` may be undefined, in which case
`encodeURIComponent` stringifies it to the literal "undefined";
`apiLicense` (an alias of `license`) is appended only when truthy. -/
def buildApiUrl (query : SearchQuery) : String :=
  "https://api.openverse.org/v1/" ++ jsTemplateStr query.mediaType ++ "?q=" ++
    encodeURIComponent (jsTemplateStr query.q) ++
    (if jsTruthy query.license then "&license=" ++ query.license.getD "" else "")

/-- `error.response?.status || 500` in the search handler's catch block
(server.js line 109): the response status when present (and nonzero, by JS
truthiness), else 500. -/
def searchCatchStatus : AxiosError → Nat
  | .httpError status _ _ => if status == 0 then 500 else status
  | .networkError _ => 500

/-- `error.response?.data?.detail || 'Invalid parameters, possibly license'`
(server.js line 103). -/
def detailOrDefault (data : Json) : String :=
  match getField data "detail" with
  | some v => if jsJsonTruthy v then jsDisplay v else "Invalid parameters, possibly license"
  | none => "Invalid parameters, possibly license"

/-- The error message computed in the search handler's catch block
(server.js lines 101-108): starts as `error.message` and is refined for
statuses 400, 401 and 429. -/
def searchCatchMessage : AxiosError → String
  | .httpError status data msg =>
    if status == 400 then "Bad request: " ++ detailOrDefault data
    else if status == 401 then "Authentication failed: Invalid or expired access token"
    else if status == 429 then "Rate limit exceeded. Please try again later."
    else msg
  | .networkError msg => msg

/-- The `/api/search` handler (server.js lines 66-111).  `tokenResult` and
`searchResult` are the outcomes the token POST and the upstream GET would
have if issued; the second component of the result is the list of network
calls actually issued.  An error thrown by `getAccessToken` is a plain
`Error` without a `response` property, so in the catch block
`error.response?.status` is undefined and the caller receives status 500
with that error's message. -/
def handleSearch (cfg : Config) (query : SearchQuery)
    (tokenResult searchResult : AxiosResult) : Response × List NetworkCall :=
  if !(mediaTypeIsValid query.mediaType) then
    ({status := 400,
      body := errorBody ("Invalid mediaType. Must be one of: " ++
        String.intercalate ", " validMediaTypes)}, [])
  else if licenseRejected query.license then
    ({status := 400,
      body := errorBody ("Invalid license. Must be one of: " ++
        String.intercalate ", " validLicenses)}, [])
  else
    let apiUrl := buildApiUrl query
    match getAccessToken cfg tokenResult with
    | (.error msg, calls) =>
      ({status := 500, body := errorBody msg}, calls)
    | (.ok _accessToken, calls) =>
      match searchResult with
      | .success data =>
        ({status := 200, body := data}, calls ++ [.searchGet apiUrl])
      | .failure e =>
        ({status := searchCatchStatus e, body := errorBody (searchCatchMessage e)},
         calls ++ [.searchGet apiUrl])

/-- The `/api/health` handler (server.js lines 114-116): `res.json` with the
default 200 status. -/
def handleHealth : Response :=
  {status := 200, body := .obj [("status", .str "OK"), ("message", .str "Server is running")]}

/-! ## Theorems about the claims -/

/-- C1: for every `/api/search` request whose `mediaType` is valid and whose
`license` does not trip the rejection guard, when both credentials are
configured, the token fetch succeeds and the upstream search returns 2xx,
the handler responds with HTTP 200 and a body equal to the upstream JSON
body, unchanged (after issuing exactly the token fetch and the search
call). -/
theorem c1_search_success_relays_upstream_body (cfg : Config) (query : SearchQuery)
    (tokenData data : Json)
    (hmt : mediaTypeIsValid query.mediaType = true)
    (hlic : licenseRejected query.license = false)
    (hid : jsTruthy cfg.clientId = true)
    (hsec : jsTruthy cfg.clientSecret = true) :
    handleSearch cfg query (.success tokenData) (.success data) =
      ({status := 200, body := data}, [.tokenFetch, .searchGet (buildApiUrl query)]) := by
  simp [handleSearch, getAccessToken, hmt, hlic, hid, hsec]

/-- Witness for C1 at a concrete request. -/
theorem c1_witness :
    handleSearch ⟨some "id", some "secret"⟩ ⟨some "cat", some "images", none⟩
        (.success (.obj [("access_token", .str "tok")])) (.success (.str "payload")) =
      ({status := 200, body := .str "payload"},
       [.tokenFetch, .searchGet "https://api.openverse.org/v1/images?q=cat"]) := by
  rw [c1_search_success_relays_upstream_body ⟨some "id", some "secret"⟩
    ⟨some "cat", some "images", none⟩ (.obj [("access_token", .str "tok")]) (.str "payload")
    (by decide) (by decide) (by decide) (by decide)]
  rfl

/-- C2: for every `/api/search` request whose `mediaType` is not in
`{images, audio}` (including undefined/empty), the handler responds with
HTTP 400 naming the allowed set and issues no network call. -/
theorem c2_invalid_mediaType_rejected (cfg : Config) (query : SearchQuery)
    (tokenResult searchResult : AxiosResult)
    (hmt : mediaTypeIsValid query.mediaType = false) :
    handleSearch cfg query tokenResult searchResult =
      ({status := 400,
        body := errorBody "Invalid mediaType. Must be one of: images, audio"}, []) := by
  unfold handleSearch
  rw [hmt]
  rfl

/-- Witness for C2: an undefined `mediaType` is rejected with no calls. -/
theorem c2_witness :
    handleSearch ⟨some "id", some "secret"⟩ ⟨some "cat", none, none⟩
        (.success .null) (.success .null) =
      ({status := 400,
        body := errorBody "Invalid mediaType. Must be one of: images, audio"}, []) :=
  c2_invalid_mediaType_rejected ⟨some "id", some "secret"⟩ ⟨some "cat", none, none⟩
    (.success .null) (.success .null) (by decide)

/-- C3: for every `/api/search` request with a valid `mediaType` and a
`license` that is present, nonempty and not in the seven-value set, the
handler responds with HTTP 400 enumerating the valid set and issues no
network call at all: license validation precedes the token fetch and no
search call is issued. -/
theorem c3_invalid_license_rejected_before_network (cfg : Config) (query : SearchQuery)
    (tokenResult searchResult : AxiosResult) (l : String)
    (hmt : mediaTypeIsValid query.mediaType = true)
    (hl : query.license = some l) (hne : l ≠ "")
    (hnotin : validLicenses.contains l = false) :
    handleSearch cfg query tokenResult searchResult =
      ({status := 400,
        body := errorBody
          "Invalid license. Must be one of: CC0, BY, BY-SA, BY-NC, BY-ND, BY-NC-SA, BY-NC-ND"},
       []) := by
  have hrej : licenseRejected query.license = true := by
    simp [licenseRejected, jsTruthy, hl, hne]
    simpa using hnotin
  unfold handleSearch
  rw [hmt, hrej]
  rfl

/-- Witness for C3 at a concrete invalid license. -/
theorem c3_witness :
    handleSearch ⟨some "id", some "secret"⟩ ⟨some "cat", some "images", some "GPL"⟩
        (.success .null) (.success .null) =
      ({status := 400,
        body := errorBody
          "Invalid license. Must be one of: CC0, BY, BY-SA, BY-NC, BY-ND, BY-NC-SA, BY-NC-ND"},
       []) :=
  c3_invalid_license_rejected_before_network ⟨some "id", some "secret"⟩
    ⟨some "cat", some "images", some "GPL"⟩ (.success .null) (.success .null) "GPL"
    (by decide) rfl (by decide) (by decide)

/-- C10: an empty-string `license` is treated as absent: the rejection guard
does not fire, the request proceeds (succeeding with HTTP 200 when everything
downstream succeeds), and no `&license=` component is appended to the
upstream URL. -/
theorem c10_empty_license_treated_as_absent (cfg : Config) (query : SearchQuery)
    (mt : String) (tokenData data : Json)
    (hl : query.license = some "")
    (hmtv : query.mediaType = some mt)
    (hmt : mediaTypeIsValid query.mediaType = true)
    (hid : jsTruthy cfg.clientId = true)
    (hsec : jsTruthy cfg.clientSecret = true) :
    licenseRejected query.license = false ∧
    handleSearch cfg query (.success tokenData) (.success data) =
      ({status := 200, body := data},
       [.tokenFetch, .searchGet
         ("https://api.openverse.org/v1/" ++ mt ++ "?q=" ++
           encodeURIComponent (jsTemplateStr query.q))]) := by
  have hrej : licenseRejected query.license = false := by
    simp [licenseRejected, jsTruthy, hl]
  refine ⟨hrej, ?_⟩
  rw [c1_search_success_relays_upstream_body cfg query tokenData data hmt hrej hid hsec]
  simp [buildApiUrl, jsTruthy, hl, hmtv, jsTemplateStr]

/-- Witness for C10 at a concrete request with `license=`. -/
theorem c10_witness :
    licenseRejected (some "") = false ∧
    handleSearch ⟨some "id", some "secret"⟩ ⟨some "cat", some "images", some ""⟩
        (.success .null) (.success (.str "payload")) =
      ({status := 200, body := .str "payload"},
       [.tokenFetch, .searchGet
         ("https://api.openverse.org/v1/" ++ "images" ++ "?q=" ++
           encodeURIComponent (jsTemplateStr (some "cat")))]) :=
  c10_empty_license_treated_as_absent ⟨some "id", some "secret"⟩
    ⟨some "cat", some "images", some ""⟩ "images" .null (.str "payload")
    rfl rfl (by decide) (by decide) (by decide)

/-- C8: for every `/api/search` request that passes validation and reaches
the upstream call, the URL of the search request is exactly
`https://api.openverse.org/v1/<mediaType>?q=<url-encoded q>`, followed by
`&license=<license>` when a (nonempty) license is present; when `q` is
absent the literal string "undefined" is URL-encoded in its place. -/
theorem c8_upstream_url_shape (cfg : Config) (query : SearchQuery) (mt : String)
    (tokenData : Json) (searchResult : AxiosResult)
    (hmtv : query.mediaType = some mt)
    (hmt : mediaTypeIsValid query.mediaType = true)
    (hlic : licenseRejected query.license = false)
    (hid : jsTruthy cfg.clientId = true)
    (hsec : jsTruthy cfg.clientSecret = true) :
    (handleSearch cfg query (.success tokenData) searchResult).2 =
      [.tokenFetch, .searchGet
        ("https://api.openverse.org/v1/" ++ mt ++ "?q=" ++
          encodeURIComponent (match query.q with | some s => s | none => "undefined") ++
          (match query.license with
           | some l => if l == "" then "" else "&license=" ++ l
           | none => ""))] := by
  have hurl : buildApiUrl query =
      "https://api.openverse.org/v1/" ++ mt ++ "?q=" ++
        encodeURIComponent (match query.q with | some s => s | none => "undefined") ++
        (match query.license with
         | some l => if l == "" then "" else "&license=" ++ l
         | none => "") := by
    unfold buildApiUrl jsTemplateStr jsTruthy
    rw [hmtv]
    cases hq : query.q <;> cases hlq : query.license <;> simp
  cases searchResult with
  | success data =>
    rw [c1_search_success_relays_upstream_body cfg query tokenData data hmt hlic hid hsec, hurl]
  | failure e =>
    simp [handleSearch, getAccessToken, hmt, hlic, hid, hsec, hurl]

/-- Witness for C8: a request with no `q` and a license. -/
theorem c8_witness :
    (handleSearch ⟨some "id", some "secret"⟩ ⟨none, some "audio", some "CC0"⟩
        (.success .null) (.success .null)).2 =
      [.tokenFetch, .searchGet
        ("https://api.openverse.org/v1/" ++ "audio" ++ "?q=" ++
          encodeURIComponent "undefined" ++ "&license=CC0")] := by
  rw [c8_upstream_url_shape ⟨some "id", some "secret"⟩ ⟨none, some "audio", some "CC0"⟩
    "audio" .null (.success .null) rfl (by decide) (by decide) (by decide) (by decide)]
  rfl

/-- C5: the token provider maps token-endpoint failures exactly as follows:
HTTP 400 with upstream error code `unsupported_grant_type` yields the fixed
instructional message; HTTP 401 the invalid-client-credentials message;
HTTP 429 the rate-limited message; and every other failure (network error,
any other status, or 400 without that error code) the generic
failed-to-obtain-access-token message. -/
theorem c5_token_error_message_mapping :
    (∀ d m, isUnsupportedGrantType d = true →
        tokenErrorMessage (.httpError 400 d m) =
          "Unsupported grant_type. Contact openverse@wordpress.org for the correct grant_type.") ∧
    (∀ d m, tokenErrorMessage (.httpError 401 d m) =
        "Authentication failed: Invalid client_id or client_secret") ∧
    (∀ d m, tokenErrorMessage (.httpError 429 d m) =
        "Rate limit exceeded. Please try again later.") ∧
    (∀ m, tokenErrorMessage (.networkError m) = "Failed to obtain access token") ∧
    (∀ s d m, s ≠ 401 → s ≠ 429 → (s = 400 → isUnsupportedGrantType d = false) →
        tokenErrorMessage (.httpError s d m) = "Failed to obtain access token") := by
  refine ⟨?_, ?_, ?_, ?_, ?_⟩
  · intro d m h
    simp [tokenErrorMessage, h]
  · intro d m
    simp [tokenErrorMessage]
  · intro d m
    simp [tokenErrorMessage]
  · intro m
    simp [tokenErrorMessage]
  · intro s d m h1 h2 h3
    by_cases hs : s = 400
    · subst hs
      simp [tokenErrorMessage, h3 rfl]
    · simp [tokenErrorMessage, hs, h1, h2]

/-- Witness for C5: the instructional branch at a concrete 400 response. -/
theorem c5_witness :
    tokenErrorMessage
        (.httpError 400 (.obj [("error", .str "unsupported_grant_type")]) "bad request") =
      "Unsupported grant_type. Contact openverse@wordpress.org for the correct grant_type." :=
  c5_token_error_message_mapping.1 (.obj [("error", .str "unsupported_grant_type")])
    "bad request" (by decide)

/-- C6: after validation and a successful token fetch, an upstream search
failure is relayed with the upstream status when one is present (nonzero),
500 on a network error; the message is refined for statuses 400, 401, 429
(in particular a 429 is relayed as 429 with the rate-limit message), is the
raw error message otherwise, and every error response has shape
`{error: string}` (via `errorBody`). -/
theorem c6_upstream_search_failure_mapping (cfg : Config) (query : SearchQuery)
    (tokenData : Json)
    (hmt : mediaTypeIsValid query.mediaType = true)
    (hlic : licenseRejected query.license = false)
    (hid : jsTruthy cfg.clientId = true)
    (hsec : jsTruthy cfg.clientSecret = true) :
    (∀ e, (handleSearch cfg query (.success tokenData) (.failure e)).1 =
        {status := searchCatchStatus e, body := errorBody (searchCatchMessage e)}) ∧
    (∀ s d m, s ≠ 0 → searchCatchStatus (.httpError s d m) = s) ∧
    (∀ m, (handleSearch cfg query (.success tokenData) (.failure (.networkError m))).1 =
        {status := 500, body := errorBody m}) ∧
    (∀ d m, (handleSearch cfg query (.success tokenData)
        (.failure (.httpError 429 d m))).1 =
        {status := 429, body := errorBody "Rate limit exceeded. Please try again later."}) ∧
    (∀ d m, searchCatchMessage (.httpError 400 d m) = "Bad request: " ++ detailOrDefault d) ∧
    (∀ d m, searchCatchMessage (.httpError 401 d m) =
        "Authentication failed: Invalid or expired access token") ∧
    (∀ s d m, s ≠ 400 → s ≠ 401 → s ≠ 429 →
        searchCatchMessage (.httpError s d m) = m) := by
  have hmain : ∀ e, (handleSearch cfg query (.success tokenData) (.failure e)).1 =
      {status := searchCatchStatus e, body := errorBody (searchCatchMessage e)} := by
    intro e
    simp [handleSearch, getAccessToken, hmt, hlic, hid, hsec]
  refine ⟨hmain, ?_, ?_, ?_, ?_, ?_, ?_⟩
  · intro s d m h
    simp [searchCatchStatus, h]
  · intro m
    rw [hmain (.networkError m)]
    rfl
  · intro d m
    rw [hmain (.httpError 429 d m)]
    rfl
  · intro d m
    simp [searchCatchMessage]
  · intro d m
    simp [searchCatchMessage]
  · intro s d m h1 h2 h3
    simp [searchCatchMessage, h1, h2, h3]

/-- Witness for C6: a concrete request whose upstream search is rate
limited. -/
theorem c6_witness :
    (handleSearch ⟨some "id", some "secret"⟩ ⟨some "cat", some "images", none⟩
        (.success (.obj [("access_token", .str "tok")]))
        (.failure (.httpError 429 .null "Request failed with status code 429"))).1 =
      {status := 429, body := errorBody "Rate limit exceeded. Please try again later."} :=
  (c6_upstream_search_failure_mapping ⟨some "id", some "secret"⟩
    ⟨some "cat", some "images", none⟩ (.obj [("access_token", .str "tok")])
    (by decide) (by decide) (by decide) (by decide)).2.2.2.1
    .null "Request failed with status code 429"

/-- C7: when either credential is absent or empty, every token request fails
with the configuration-error message before any network call, and a
`/api/search` request that passes validation surfaces it as HTTP 500 with
no network call issued. -/
theorem c7_missing_credentials_fail_with_500 (cfg : Config)
    (hcfg : jsTruthy cfg.clientId = false ∨ jsTruthy cfg.clientSecret = false) :
    (∀ tokenResult, getAccessToken cfg tokenResult = (.error missingCredsMsg, [])) ∧
    (∀ (query : SearchQuery) (tokenResult searchResult : AxiosResult),
        mediaTypeIsValid query.mediaType = true →
        licenseRejected query.license = false →
        handleSearch cfg query tokenResult searchResult =
          ({status := 500, body := errorBody missingCredsMsg}, [])) := by
  have htok : ∀ tokenResult, getAccessToken cfg tokenResult = (.error missingCredsMsg, []) := by
    intro tokenResult
    rcases hcfg with h | h <;> simp [getAccessToken, h]
  refine ⟨htok, ?_⟩
  intro query tokenResult searchResult hmt hlic
  unfold handleSearch
  rw [hmt, hlic, htok tokenResult]
  rfl

/-- Witness for C7: an empty client secret at a concrete request. -/
theorem c7_witness :
    getAccessToken ⟨some "id", some ""⟩ (.success .null) = (.error missingCredsMsg, []) ∧
    handleSearch ⟨some "id", some ""⟩ ⟨some "cat", some "images", none⟩
        (.success .null) (.success .null) =
      ({status := 500, body := errorBody missingCredsMsg}, []) := by
  have h := c7_missing_credentials_fail_with_500 ⟨some "id", some ""⟩ (Or.inr (by decide))
  exact ⟨h.1 (.success .null),
    h.2 ⟨some "cat", some "images", none⟩ (.success .null) (.success .null)
      (by decide) (by decide)⟩

/-- C4 counterexample: when the token endpoint returns HTTP 401 for
`/api/search?q=cat&mediaType=images`, the caller does NOT receive the token
endpoint's status 401 — the handler responds with status 500, because the
error `getAccessToken` throws carries no `response` property. -/
theorem c4_counterexample :
    (handleSearch ⟨some "id", some "secret"⟩ ⟨some "cat", some "images", none⟩
        (.failure (.httpError 401 .null "Request failed with status code 401"))
        (.success .null)).1.status = 500 ∧
    ¬ (handleSearch ⟨some "id", some "secret"⟩ ⟨some "cat", some "images", none⟩
        (.failure (.httpError 401 .null "Request failed with status code 401"))
        (.success .null)).1.status = 401 := by
  constructor
  · rfl
  · decide

/-- C4 amended: when the token endpoint returns HTTP 401 for
`/api/search?q=cat&mediaType=images` (credentials configured), the caller
receives the mapped authentication-failure message with HTTP status 500
(the token endpoint's status is not surfaced), and no search call is
issued. -/
theorem c4_token_401_maps_to_auth_message_with_500 (cfg : Config) (d : Json)
    (m : String) (searchResult : AxiosResult)
    (hid : jsTruthy cfg.clientId = true)
    (hsec : jsTruthy cfg.clientSecret = true) :
    handleSearch cfg ⟨some "cat", some "images", none⟩
        (.failure (.httpError 401 d m)) searchResult =
      ({status := 500,
        body := errorBody "Authentication failed: Invalid client_id or client_secret"},
       [.tokenFetch]) := by
  have h1 : mediaTypeIsValid (some "images") = true := by decide
  have h2 : licenseRejected (none : Option String) = false := by decide
  simp [handleSearch, getAccessToken, h1, h2, hid, hsec, tokenErrorMessage]

/-- Witness for the amended C4 at a concrete configuration. -/
theorem c4_witness :
    handleSearch ⟨some "id", some "secret"⟩ ⟨some "cat", some "images", none⟩
        (.failure (.httpError 401 .null "Request failed with status code 401"))
        (.success .null) =
      ({status := 500,
        body := errorBody "Authentication failed: Invalid client_id or client_secret"},
       [.tokenFetch]) :=
  c4_token_401_maps_to_auth_message_with_500 ⟨some "id", some "secret"⟩ .null
    "Request failed with status code 401" (.success .null) (by decide) (by decide)

/-- C9: `/api/health` responds with HTTP 200 and body
`{status: "OK", message: "Server is running"}`, unconditionally. -/
theorem c9_health_always_ok :
    handleHealth =
      {status := 200,
       body := .obj [("status", .str "OK"), ("message", .str "Server is running")]} := rfl

end MediaNest
